import Mathlib

/-!
Shallow embedding of the `apartments-filters` repository
(`src/entities/apartment/model/store.ts` and `src/shareds/lib/debounce/index.ts`).

Modelling conventions:
* JavaScript numbers on apartment records (`price`, `square`, `floor`) and in
  filter ranges are modelled as `Int`; all values appearing in the store are
  integral and far below 2^53, where double arithmetic is exact.
* The Pinia store is modelled as a record `StoreState`; `localStorage` is the
  `storage` field of `World` (the single key `apartments-filters` holds the
  serialized `{ filters, sortBy }` payload, modelled in typed form as
  `Option (FilterState × SortOption)` for the happy path where only the store
  itself writes the slot).  A separate JSON-value model (`JValue`) is used for
  `initPersistedState`, where arbitrary or malformed payloads matter.
* `[...xs].sort(cmp)` (ECMAScript stable sort) is modelled as
  `List.mergeSort` with `le a b := cmp a b ≤ 0`, which has exactly the
  stable-sort semantics guaranteed by the ECMAScript specification.
* `async` actions (`fetchApartments`, `loadMore`) are modelled as atomic state
  transformers: the awaited collaborator result is passed in as a parameter
  (`Except String (List ApartmentsItem)` for `getApartments`); the artificial
  `setTimeout` delay of `loadMore` has no observable state effect.
-/

namespace ApartmentsStore

/-- The apartment record (`apartmentsItem` in `src/entities/apartment/types`,
not under `src/`): the store's logic touches `title`, `price`, `square` and
`floor`; `id` stands for the identifier/display fields it never reads. -/
structure ApartmentsItem where
  id : Nat
  title : String
  price : Int
  square : Int
  floor : Int
deriving Repr, DecidableEq

/-- `"-комнатная"`, the room-count marker of the regex `/(\d+)-комнатная/`. -/
def roomsMarker : List Char := "-комнатная".data

/-- `parseInt(ds, 10)` on a nonempty string of decimal digits. -/
def digitsVal (ds : List Char) : Nat :=
  ds.foldl (fun acc c => acc * 10 + (c.toNat - 48)) 0

/-- Leftmost match of the regex `/(\d+)-комнатная/` over a character list:
the regex engine attempts a match at each position in turn; an attempt at a
position succeeds iff the position starts a digit run whose maximal extent is
immediately followed by the marker (backtracking to a shorter digit run
cannot help, since the marker does not start with a digit).  Returns the
numeric value of the captured digit run of the first successful attempt. -/
def scanRooms : List Char → Option Nat
  | [] => none
  | c :: cs =>
    if c.isDigit ∧ roomsMarker.isPrefixOf ((c :: cs).dropWhile Char.isDigit) then
      some (digitsVal ((c :: cs).takeWhile Char.isDigit))
    else scanRooms cs

/-- `extractRoomsCount` (store.ts 37–40): extract the room count from a title,
`0` when the pattern is absent. -/
def extractRoomsCount (title : String) : Int :=
  match scanRooms title.data with
  | some n => (n : Int)
  | none => 0

/-- `FilterState` (store.ts 13–17). -/
structure FilterState where
  rooms : List Int
  priceRange : Int × Int
  squareRange : Int × Int
deriving Repr, DecidableEq

/-- `RoomOption` (store.ts 19–24). -/
structure RoomOption where
  name : String
  value : Int
  active : Bool
  disabled : Bool
deriving Repr, DecidableEq

/-- `SortOption` (store.ts 4–11). -/
inductive SortOption where
  | price_asc
  | price_desc
  | square_asc
  | square_desc
  | floor_asc
  | floor_desc
  | default
deriving Repr, DecidableEq

/-- The filter predicate of `filterApartments` (store.ts 146–168), with the
early `return false` branches written as a cascade. -/
def passesFilters (f : FilterState) (a : ApartmentsItem) : Bool :=
  if 0 < f.rooms.length ∧ ¬ f.rooms.contains (extractRoomsCount a.title) then
    false
  else if a.price < f.priceRange.1 ∨ f.priceRange.2 < a.price then
    false
  else if a.square < f.squareRange.1 ∨ f.squareRange.2 < a.square then
    false
  else
    true

/-- `filterApartments` (store.ts 145–169). -/
def filterApartments (f : FilterState) (apartments : List ApartmentsItem) :
    List ApartmentsItem :=
  apartments.filter (passesFilters f)

/-- `sortMapper` (store.ts 132–143): the numeric comparator for each option. -/
def sortMapper : SortOption → ApartmentsItem → ApartmentsItem → Int
  | .default => fun _ _ => 0
  | .price_asc => fun a b => a.price - b.price
  | .price_desc => fun a b => b.price - a.price
  | .square_asc => fun a b => a.square - b.square
  | .square_desc => fun a b => b.square - a.square
  | .floor_asc => fun a b => a.floor - b.floor
  | .floor_desc => fun a b => b.floor - a.floor

/-- `sortApartments` (store.ts 171–179): `default` returns a shallow copy;
otherwise `[...apartments].sort(sortMapper[sortOption])`, the ECMAScript
stable sort, modelled as `mergeSort` on `comparator ≤ 0`. -/
def sortApartments (apartments : List ApartmentsItem)
    (sortOption : SortOption) : List ApartmentsItem :=
  if sortOption = SortOption.default then apartments
  else apartments.mergeSort (fun a b => decide (sortMapper sortOption a b ≤ 0))

/-- The sort key whose equality is exactly "the comparator of this option
returns 0 on the pair" — the equivalence classes inside which stability is
asserted. -/
def classKey : SortOption → ApartmentsItem → Int
  | .default => fun _ => 0
  | .price_asc => fun a => a.price
  | .price_desc => fun a => a.price
  | .square_asc => fun a => a.square
  | .square_desc => fun a => a.square
  | .floor_asc => fun a => a.floor
  | .floor_desc => fun a => a.floor

/-- Filter-range constants (store.ts 27–30). -/
def DEFAULT_PRICE_MIN : Int := 5500000

def DEFAULT_PRICE_MAX : Int := 18900000

def DEFAULT_SQUARE_MIN : Int := 33

def DEFAULT_SQUARE_MAX : Int := 123

def ITEMS_PER_PAGE : Nat := 5

/-- The reactive Pinia state of `useApartmentsStore` (store.ts 43–84). -/
structure StoreState where
  allApartments : List ApartmentsItem
  displayedApartments : List ApartmentsItem
  filteredApartments : List ApartmentsItem
  currentPage : Nat
  itemsPerPage : Nat
  isLoading : Bool
  error : Option String
  sortBy : SortOption
  hasInitialized : Bool
  rooms : List RoomOption
  filters : FilterState
deriving Repr, DecidableEq

/-- The initial `rooms` option list (store.ts 53–78): note `2к` starts with
`active = true` and `4к` is permanently disabled. -/
def initialRooms : List RoomOption :=
  [⟨"1к", 1, false, false⟩, ⟨"2к", 2, true, false⟩,
   ⟨"3к", 3, false, false⟩, ⟨"4к", 4, false, true⟩]

/-- The initial `filters` value (store.ts 80–84). -/
def defaultFilters : FilterState :=
  ⟨[], (DEFAULT_PRICE_MIN, DEFAULT_PRICE_MAX),
      (DEFAULT_SQUARE_MIN, DEFAULT_SQUARE_MAX)⟩

/-- The freshly constructed store (store.ts 43–84). -/
def initialState : StoreState where
  allApartments := []
  displayedApartments := []
  filteredApartments := []
  currentPage := 1
  itemsPerPage := ITEMS_PER_PAGE
  isLoading := false
  error := none
  sortBy := .default
  hasInitialized := false
  rooms := initialRooms
  filters := defaultFilters

/-- `hasMoreItems` (store.ts 103–105). -/
def hasMoreItems (s : StoreState) : Bool :=
  s.displayedApartments.length < s.filteredApartments.length

/-- `totalPages` (store.ts 107–109): `Math.ceil(filtered / itemsPerPage)`. -/
def totalPages (s : StoreState) : Nat :=
  (s.filteredApartments.length + s.itemsPerPage - 1) / s.itemsPerPage

/-- The store together with the `localStorage` slot `apartments-filters`.
The slot, when present, holds `JSON.stringify({ filters, sortBy })`; at this
typed level it is modelled as the serialized pair itself (the store is the
only writer and always writes this shape).  Arbitrary / malformed slot
contents are treated by the separate `JValue` model below. -/
structure World where
  store : StoreState
  storage : Option (FilterState × SortOption)
deriving Repr, DecidableEq

/-- A session beginning at the initial store with a pre-existing (possibly
absent) persisted slot. -/
def initWorld (saved : Option (FilterState × SortOption)) : World :=
  ⟨initialState, saved⟩

/-- `saveFilters` (store.ts 125–130): write `{ filters, sortBy }` to the
storage slot. -/
def saveFilters (w : World) : World :=
  { w with storage := some (w.store.filters, w.store.sortBy) }

/-- `initPersistedState` (store.ts 86–101) on a well-formed slot: restore
`filters` and `sortBy` and sync the `active` flag of each room option with
membership of its value in the restored room set.  (`parsed.filters` and
`parsed.sortBy` are both present in a slot written by `saveFilters`.) -/
def initPersistedState (w : World) : World :=
  match w.storage with
  | none => w
  | some (f, sb) =>
    { w with
      store := { w.store with
        filters := f
        sortBy := sb
        rooms := w.store.rooms.map fun r =>
          { r with active := f.rooms.contains r.value } } }

/-- `applyFiltersAndSort` (store.ts 181–193). -/
def applyFiltersAndSort (s : StoreState) : StoreState :=
  if s.allApartments.length = 0 then s
  else
    let sorted := sortApartments (filterApartments s.filters s.allApartments)
      s.sortBy
    { s with
      filteredApartments := sorted
      currentPage := 1
      displayedApartments := sorted.take s.itemsPerPage }

/-- `fetchApartments` (store.ts 195–213): the awaited result of the external
`getApartments` collaborator is the `result` parameter.  Returns the new
world and whether the collaborator was invoked.  On success: populate the
dataset, mark initialized, restore persisted state, recompute; on failure:
capture the error; `isLoading` is cleared in the `finally` block on both
paths. -/
def fetchApartments (w : World)
    (result : Except String (List ApartmentsItem)) : World × Bool :=
  if 0 < w.store.allApartments.length then (w, false)
  else
    match result with
    | .ok data =>
      let w1 := { w with store := { w.store with
        isLoading := true, error := none,
        allApartments := data, hasInitialized := true } }
      let w2 := initPersistedState w1
      let w3 := { w2 with store := applyFiltersAndSort w2.store }
      ({ w3 with store := { w3.store with isLoading := false } }, true)
    | .error e =>
      ({ w with store := { w.store with
        isLoading := false, error := some e } }, true)

/-- `loadMore` (store.ts 215–237): no-op unless there are more items and no
load is in flight; otherwise advance the page and widen the displayed window
to the first `currentPage * itemsPerPage` elements (`slice(0, end)` is
`take end`).  The `try` body (a `setTimeout` delay and a slice) cannot throw,
so the `catch` arm is unreachable; `finally` clears `isLoading`. -/
def loadMore (s : StoreState) : StoreState :=
  if ¬ hasMoreItems s ∨ s.isLoading then s
  else
    { s with
      isLoading := false
      currentPage := s.currentPage + 1
      displayedApartments :=
        s.filteredApartments.take ((s.currentPage + 1) * s.itemsPerPage) }

/-- `setSortBy` (store.ts 239–243). -/
def setSortBy (w : World) (newSortBy : SortOption) : World :=
  saveFilters { w with store := (applyFiltersAndSort
    { w.store with sortBy := newSortBy }) }

/-- `setRoomsFilter` (store.ts 245–249): note it does not touch the room
options' `active` flags. -/
def setRoomsFilter (w : World) (rs : List Int) : World :=
  saveFilters { w with store := (applyFiltersAndSort
    { w.store with filters := { w.store.filters with rooms := rs } }) }

/-- `resetRooms` (store.ts 251–253): clears only the UI `active` flags; no
recompute, no persistence. -/
def resetRooms (s : StoreState) : StoreState :=
  { s with rooms := s.rooms.map fun r => { r with active := false } }

/-- `setPriceRange` (store.ts 255–259). -/
def setPriceRange (w : World) (range : Int × Int) : World :=
  saveFilters { w with store := (applyFiltersAndSort
    { w.store with filters := { w.store.filters with priceRange := range } }) }

/-- `setSquareRange` (store.ts 261–265). -/
def setSquareRange (w : World) (range : Int × Int) : World :=
  saveFilters { w with store := (applyFiltersAndSort
    { w.store with filters := { w.store.filters with squareRange := range } }) }

/-- `resetFilters` (store.ts 267–276). -/
def resetFilters (w : World) : World :=
  saveFilters { w with store := (applyFiltersAndSort
    { w.store with filters := defaultFilters, sortBy := .default }) }

/-- `reset` (store.ts 278–293): resets every `ref` of the store — but not the
`rooms` option list — and then persists the defaults. -/
def reset (w : World) : World :=
  saveFilters { w with store := { w.store with
    allApartments := []
    displayedApartments := []
    filteredApartments := []
    currentPage := 1
    isLoading := false
    error := none
    sortBy := .default
    hasInitialized := false
    filters := defaultFilters } }

/-- One invocation of a public store action (store.ts 295–320 lists the
exported actions); the argument of `fetchApartments` is the outcome of the
external collaborator for that invocation. -/
inductive Action where
  | fetchApartments (result : Except String (List ApartmentsItem))
  | loadMore
  | setSortBy (o : SortOption)
  | setRoomsFilter (rs : List Int)
  | resetRooms
  | setPriceRange (range : Int × Int)
  | setSquareRange (range : Int × Int)
  | resetFilters
  | reset

/-- Big-step semantics of one action on the world. -/
def step (w : World) : Action → World
  | .fetchApartments result => (fetchApartments w result).1
  | .loadMore => { w with store := loadMore w.store }
  | .setSortBy o => setSortBy w o
  | .setRoomsFilter rs => setRoomsFilter w rs
  | .resetRooms => { w with store := resetRooms w.store }
  | .setPriceRange range => setPriceRange w range
  | .setSquareRange range => setSquareRange w range
  | .resetFilters => resetFilters w
  | .reset => reset w

/-- A whole session: the actions performed on a fresh store, in order. -/
def run (saved : Option (FilterState × SortOption)) (acts : List Action) :
    World :=
  acts.foldl step (initWorld saved)

/-!
JSON-value model of `initPersistedState` (store.ts 86–101).

The happy-path model above assumes a slot written by `saveFilters`; this model
follows the code through an arbitrary `localStorage` payload, at the level of
parsed JSON values with ECMAScript property-access and `??` semantics, to
settle the error-handling behaviour on absent / malformed / partially shaped
payloads.  `console.warn` logging has no state effect and is not modelled.
-/

/-- A parsed JSON value (the possible results of `JSON.parse`). -/
inductive JValue where
  | jnull
  | jbool (b : Bool)
  | jnum (n : Int)
  | jstr (s : String)
  | jarr (elems : List JValue)
  | jobj (fields : List (String × JValue))
deriving Repr

/-- First binding of a key in an object's field list (`JSON.parse` keeps one
binding per key; payloads with duplicate keys are not considered). -/
def lookupField : List (String × JValue) → String → Option JValue
  | [], _ => none
  | (k, v) :: rest, key => if k = key then some v else lookupField rest key

/-- ECMAScript property access `v[key]`: throws `TypeError` on `null`
(modelled as `.error`), returns the field (or `undefined`, modelled as
`.ok none`) on objects, and `undefined` on other primitives (none of the
accessed keys is a built-in property of number / string / boolean / array). -/
def jget : JValue → String → Except Unit (Option JValue)
  | .jnull, _ => .error ()
  | .jobj fields, key => .ok (lookupField fields key)
  | _, _ => .ok none

/-- Whether `needle` occurs as a contiguous run inside `hay`. -/
def isInfixList (needle : List Char) : List Char → Bool
  | [] => needle.isEmpty
  | c :: cs => needle.isPrefixOf (c :: cs) || isInfixList needle cs

/-- ECMAScript `x.includes(v)` for an integer `v`, where `x` is the possibly
`undefined` result of a property access: a `TypeError` unless `x` is an array
(element test under SameValueZero) or a string (substring test on the decimal
representation of `v`); `undefined`, `null`, numbers, booleans and plain
objects have no callable `includes`. -/
def jincludes : Option JValue → Int → Except Unit Bool
  | some (.jarr elems), v =>
    .ok (elems.any fun e => match e with
      | .jnum m => m == v
      | _ => false)
  | some (.jstr s), v => .ok (isInfixList (toString v).data s.data)
  | _, _ => .error ()

/-- The `rooms.forEach` loop of `initPersistedState` (store.ts 94–96):
`room.active = filters.value.rooms.includes(room.value)` for each option in
order.  The right-hand side is evaluated before the assignment, and its throw
condition does not depend on the room, so a `TypeError` aborts the loop at the
first option with every flag unchanged. -/
def syncRooms (filtersJ : JValue) : List RoomOption → List RoomOption
  | [] => []
  | r :: rest =>
    match jget filtersJ "rooms" >>= fun rv => jincludes rv r.value with
    | .error _ => r :: rest
    | .ok b => { r with active := b } :: syncRooms filtersJ rest

/-- The JSON value of the default `filters` object (store.ts 80–84), for the
JSON-level model. -/
def defaultFiltersJ : JValue :=
  .jobj [("rooms", .jarr []),
         ("priceRange", .jarr [.jnum DEFAULT_PRICE_MIN, .jnum DEFAULT_PRICE_MAX]),
         ("squareRange", .jarr [.jnum DEFAULT_SQUARE_MIN, .jnum DEFAULT_SQUARE_MAX])]

/-- The slice of store state that `initPersistedState` touches, with `filters`
and `sortBy` held as raw JSON values (the code assigns whatever
`parsed.filters` / `parsed.sortBy` hold, well shaped or not). -/
structure PersistSlice where
  filters : JValue
  sortBy : JValue
  rooms : List RoomOption
deriving Repr

/-- The pre-restoration slice: default filters, `"default"` sort, initial
room options. -/
def defaultSlice : PersistSlice :=
  ⟨defaultFiltersJ, .jstr "default", initialRooms⟩

/-- `initPersistedState` (store.ts 86–101) over an arbitrary slot.
`saved` is `none` when `localStorage.getItem` returns `null`; otherwise it
carries the outcome of `JSON.parse` on the stored string (`.error` = the
parse threw, caught by the `catch` with nothing assigned).  Inside the `try`:
`filters.value = parsed.filters ?? filters.value` (`??` also falls back on a
JSON `null`), `sortBy.value = parsed.sortBy ?? "default"`, then the room-flag
sync, whose `TypeError` (when the new `filters.rooms` is not array-or-string)
is caught by the same `catch` — after the first two assignments landed. -/
def initPersistedStateJ (saved : Option (Except Unit JValue))
    (s : PersistSlice) : PersistSlice :=
  match saved with
  | none => s
  | some (.error _) => s
  | some (.ok parsed) =>
    match jget parsed "filters" with
    | .error _ => s
    | .ok fOpt =>
      let filtersNew := match fOpt with
        | none => s.filters
        | some .jnull => s.filters
        | some v => v
      let sortByNew := match jget parsed "sortBy" with
        | .error _ => s.sortBy
        | .ok none => JValue.jstr "default"
        | .ok (some .jnull) => JValue.jstr "default"
        | .ok (some v) => v
      { filters := filtersNew
        sortBy := sortByNew
        rooms := syncRooms filtersNew s.rooms }

/-!
Model of the debounce utility (`src/shareds/lib/debounce/index.ts`).

The closure state is the pending timer: `some (fireTime, args)` when a
`setTimeout` is scheduled, `none` otherwise.  A session is a list of wrapper
invocations `(time, args)` at strictly increasing instants, processed by the
single-threaded event loop: a timer due at or before the next invocation has
already fired (executing the wrapped function and nulling the timer) by the
time that invocation runs; otherwise the invocation's `clearTimeout` cancels
it.  Each invocation then schedules the wrapped call at `time + wait` with
its own arguments.  The result is the list of executions of the wrapped
function, as `(time, args)` pairs in order. -/
def debounceRun {α : Type} (wait : Nat) :
    Option (Nat × α) → List (Nat × α) → List (Nat × α)
  | none, [] => []
  | some p, [] => [p]
  | none, (t, a) :: rest => debounceRun wait (some (t + wait, a)) rest
  | some (ft, fa), (t, a) :: rest =>
    if ft ≤ t then (ft, fa) :: debounceRun wait (some (t + wait, a)) rest
    else debounceRun wait (some (t + wait, a)) rest

/-- A burst: successive invocations at increasing instants, each arriving
sooner than `wait` after the previous one. -/
def IsBurst {α : Type} (wait : Nat) (calls : List (Nat × α)) : Prop :=
  calls.Chain' fun p q => p.1 < q.1 ∧ q.1 < p.1 + wait

/-- A concrete 12-item dataset; every item passes the default filters
(prices 6 000 000 – 7 100 000 inside [5 500 000, 18 900 000], squares 40–51
inside [33, 123]). -/
def data12 : List ApartmentsItem :=
  (List.range 12).map fun i =>
    ⟨i + 1, toString (i % 3 + 1) ++ "-комнатная квартира",
     6000000 + 100000 * (i : Int), 40 + (i : Int), (i : Int) + 1⟩

/-- The world after a successful first fetch of `data12` on a fresh session
with an empty storage slot. -/
def fetched12 : World := (fetchApartments (initWorld none) (Except.ok data12)).1

/-- The displayed-window invariant: `displayedApartments` is always the
`currentPage * itemsPerPage`-element prefix of `filteredApartments`. -/
def DisplayedInv (s : StoreState) : Prop :=
  s.displayedApartments =
    s.filteredApartments.take (s.currentPage * s.itemsPerPage)

/-- The room options with every `active` flag cleared (the state after
`resetRooms`), used to observe the flag sync of `initPersistedState`. -/
def inactiveRooms : List RoomOption :=
  initialRooms.map fun r => { r with active := false }

/-- The spec's well-formed persisted payload
`{"filters":{"rooms":[2],"priceRange":[1,2],"squareRange":[1,2]},"sortBy":"price_asc"}`. -/
def wellFormedFiltersJ : JValue :=
  .jobj [("rooms", .jarr [.jnum 2]),
         ("priceRange", .jarr [.jnum 1, .jnum 2]),
         ("squareRange", .jarr [.jnum 1, .jnum 2])]

/-! ## Theorems -/

/-- The Boolean filter predicate, spelled out as a proposition. -/
theorem passesFilters_iff (f : FilterState) (a : ApartmentsItem) :
    passesFilters f a = true ↔
      ((f.rooms = [] ∨ extractRoomsCount a.title ∈ f.rooms) ∧
       (f.priceRange.1 ≤ a.price ∧ a.price ≤ f.priceRange.2) ∧
       (f.squareRange.1 ≤ a.square ∧ a.square ≤ f.squareRange.2)) := by
  unfold passesFilters
  split_ifs with h1 h2 h3
  · simp only [Bool.false_eq_true, false_iff]
    rintro ⟨hr | hr, -, -⟩
    · rw [hr] at h1; simp at h1
    · exact h1.2 (by simpa [List.contains] using hr)
  · simp only [Bool.false_eq_true, false_iff]
    rintro ⟨-, ⟨hp1, hp2⟩, -⟩
    omega
  · simp only [Bool.false_eq_true, false_iff]
    rintro ⟨-, -, hs1, hs2⟩
    omega
  · simp only [true_iff]
    push_neg at h1 h2 h3
    refine ⟨?_, by omega, by omega⟩
    by_cases hn : f.rooms = []
    · exact Or.inl hn
    · right
      have hlen : 0 < f.rooms.length := List.length_pos.mpr hn
      simpa [List.contains] using h1 hlen

/-- C1: for every dataset `D` and filter state, `filterApartments` returns a
subsequence of `D` (same elements in the same relative order, the input list
untouched), and an apartment is in the result iff it is in `D`, its
title-extracted room count passes the (possibly empty) room filter, and its
price and square lie inclusively within the configured ranges. -/
theorem filterApartments_sublist_and_mem (f : FilterState)
    (D : List ApartmentsItem) :
    (filterApartments f D).Sublist D ∧
    ∀ a : ApartmentsItem,
      a ∈ filterApartments f D ↔
        (a ∈ D ∧
         (f.rooms = [] ∨ extractRoomsCount a.title ∈ f.rooms) ∧
         (f.priceRange.1 ≤ a.price ∧ a.price ≤ f.priceRange.2) ∧
         (f.squareRange.1 ≤ a.square ∧ a.square ≤ f.squareRange.2)) := by
  refine ⟨List.filter_sublist D, fun a => ?_⟩
  rw [filterApartments, List.mem_filter]
  exact and_congr_right fun _ => passesFilters_iff f a

/-- C10: in the freshly constructed store the `2к` room option starts with
`active = true` while `filters.rooms` is empty, so no room filtering is
applied even though one option appears selected: the initial filter predicate
only constrains price and square. -/
theorem initial_rooms_option_mismatch :
    initialState.rooms[1]? = some ⟨"2к", 2, true, false⟩ ∧
    initialState.filters.rooms = [] ∧
    ∀ a : ApartmentsItem,
      passesFilters initialState.filters a = true ↔
        (DEFAULT_PRICE_MIN ≤ a.price ∧ a.price ≤ DEFAULT_PRICE_MAX ∧
         DEFAULT_SQUARE_MIN ≤ a.square ∧ a.square ≤ DEFAULT_SQUARE_MAX) := by
  refine ⟨rfl, rfl, fun a => ?_⟩
  rw [passesFilters_iff]
  simp [initialState, defaultFilters, and_assoc]

/-- The comparator-induced Boolean order of each sort option is transitive. -/
theorem sortLe_trans (S : SortOption) (a b c : ApartmentsItem)
    (h1 : decide (sortMapper S a b ≤ 0) = true)
    (h2 : decide (sortMapper S b c ≤ 0) = true) :
    decide (sortMapper S a c ≤ 0) = true := by
  cases S <;> simp [sortMapper] at * <;> omega

/-- The comparator-induced Boolean order of each sort option is total. -/
theorem sortLe_total (S : SortOption) (a b : ApartmentsItem) :
    (decide (sortMapper S a b ≤ 0) || decide (sortMapper S b a ≤ 0)) = true := by
  cases S <;> simp [sortMapper] <;> omega

/-- Two items with the same sort key compare `≤ 0` (ties of the comparator
are exactly equal keys). -/
theorem sortLe_of_classKey_eq (S : SortOption) (a b : ApartmentsItem)
    (h : classKey S a = classKey S b) :
    decide (sortMapper S a b ≤ 0) = true := by
  cases S <;> simp [sortMapper, classKey] at * <;> omega

/-- Stability of `mergeSort` in filter form: the elements selected by a
predicate inside which the order is universally `le` come out in their
original relative order. -/
theorem mergeSort_filter_eq {α : Type} (le : α → α → Bool)
    (htrans : ∀ a b c : α, le a b → le b c → le a c)
    (htotal : ∀ a b : α, le a b || le b a)
    (p : α → Bool)
    (hp : ∀ a b : α, p a = true → p b = true → le a b = true)
    (l : List α) :
    (l.mergeSort le).filter p = l.filter p := by
  have hpair : (l.filter p).Pairwise fun a b => le a b := by
    refine List.pairwise_of_forall_mem_list fun a ha b hb => ?_
    exact hp a b (List.of_mem_filter ha) (List.of_mem_filter hb)
  have hsub : List.Sublist (l.filter p) (l.mergeSort le) :=
    List.sublist_mergeSort htrans htotal hpair (List.filter_sublist l)
  have hsub2 := hsub.filter p
  rw [List.filter_eq_self.mpr fun a ha => (List.mem_filter.mp ha).2] at hsub2
  have hperm := (List.mergeSort_perm l le).filter p
  exact (hsub2.eq_of_length hperm.length_eq.symm).symm

/-- C2: `sortApartments` returns a permutation of its input for every sort
option; the `default` option returns the input order unchanged (a shallow
copy); and the sort is stable: the items sharing any value of the selected
comparator's key keep their original relative order. -/
theorem sortApartments_perm_and_stable (S : SortOption)
    (l : List ApartmentsItem) :
    (sortApartments l S).Perm l ∧
    sortApartments l SortOption.default = l ∧
    ∀ k : Int,
      (sortApartments l S).filter (fun a => classKey S a == k) =
        l.filter (fun a => classKey S a == k) := by
  refine ⟨?_, rfl, fun k => ?_⟩
  · unfold sortApartments
    split
    · exact List.Perm.refl l
    · exact List.mergeSort_perm l _
  · unfold sortApartments
    split
    · rfl
    · refine mergeSort_filter_eq _ (sortLe_trans S) (sortLe_total S) _
        (fun a b ha hb => sortLe_of_classKey_eq S a b ?_) l
      have ha' : classKey S a = k := by simpa using ha
      have hb' : classKey S b = k := by simpa using hb
      rw [ha', hb']

/-- C3: `loadMore` is a no-op when `hasMoreItems` is false or a load is in
flight; otherwise it increments `currentPage` and sets the displayed list to
the first `currentPage * itemsPerPage` elements of `filteredApartments`
(`take` caps at the filtered length).  On a fresh 12-item fetch with
`itemsPerPage = 5`: 5 displayed items and `hasMoreItems`, then 10 after one
`loadMore`, then 12 (not 15) and no more items after a second. -/
theorem loadMore_spec :
    (∀ s : StoreState,
      hasMoreItems s = false ∨ s.isLoading = true → loadMore s = s) ∧
    (∀ s : StoreState, hasMoreItems s = true → s.isLoading = false →
      loadMore s =
        { s with
          currentPage := s.currentPage + 1
          displayedApartments := s.filteredApartments.take
            ((s.currentPage + 1) * s.itemsPerPage) }) ∧
    (fetched12.store.displayedApartments.length = 5 ∧
     hasMoreItems fetched12.store = true ∧
     (loadMore fetched12.store).displayedApartments.length = 10 ∧
     (loadMore (loadMore fetched12.store)).displayedApartments.length = 12 ∧
     hasMoreItems (loadMore (loadMore fetched12.store)) = false) := by
  refine ⟨fun s h => ?_, fun s h1 h2 => ?_, by decide, by decide, by decide,
    by decide, by decide⟩
  · unfold loadMore
    rcases h with h | h
    · rw [if_pos (Or.inl (by simp [h]))]
    · rw [if_pos (Or.inr (by simp [h]))]
  · unfold loadMore
    rw [if_neg (by simp [h1, h2])]
    rw [← h2]

/-- Witness for C3 at concrete states: the fresh store (nothing to load) and
the freshly fetched 12-item store. -/
theorem loadMore_spec_witness :
    loadMore initialState = initialState ∧
    loadMore fetched12.store =
      { fetched12.store with
        currentPage := fetched12.store.currentPage + 1
        displayedApartments := fetched12.store.filteredApartments.take
          ((fetched12.store.currentPage + 1) * fetched12.store.itemsPerPage) } :=
  ⟨loadMore_spec.1 initialState (Or.inl (by decide)),
   loadMore_spec.2.1 fetched12.store (by decide) (by decide)⟩

/-- C6: `fetchApartments` returns immediately — collaborator not invoked,
state untouched — whenever the dataset is already non-empty; so a fetch on a
fresh store followed by a second fetch invokes the collaborator exactly
once. -/
theorem fetchApartments_guard :
    (∀ (w : World) (r : Except String (List ApartmentsItem)),
      w.store.allApartments ≠ [] → fetchApartments w r = (w, false)) ∧
    ((fetchApartments (initWorld none) (Except.ok data12)).2 = true ∧
     fetchApartments fetched12 (Except.ok data12) = (fetched12, false)) := by
  refine ⟨fun w r h => ?_, by decide, by decide⟩
  unfold fetchApartments
  rw [if_pos (List.length_pos.mpr h)]

/-- Witness for C6 at the concrete fetched world. -/
theorem fetchApartments_guard_witness :
    fetchApartments fetched12 (Except.error "again") = (fetched12, false) :=
  fetchApartments_guard.1 fetched12 (Except.error "again") (by decide)

/-- C7: on a failed fetch of an empty dataset the error is captured into
`error`, `allApartments` stays empty (a retry is not skipped by the guard),
and `isLoading` ends up cleared whatever the outcome of the collaborator. -/
theorem fetchApartments_failure_spec :
    (∀ (w : World) (e : String), w.store.allApartments = [] →
      ((fetchApartments w (Except.error e)).1.store.error = some e ∧
       (fetchApartments w (Except.error e)).1.store.allApartments = [] ∧
       (fetchApartments w (Except.error e)).1.store.isLoading = false)) ∧
    (∀ (w : World) (r : Except String (List ApartmentsItem)),
      w.store.allApartments = [] →
      (fetchApartments w r).1.store.isLoading = false) := by
  constructor
  · intro w e h
    unfold fetchApartments
    rw [if_neg (by simp [h])]
    exact ⟨rfl, h, rfl⟩
  · intro w r h
    unfold fetchApartments
    rw [if_neg (by simp [h])]
    cases r with
    | ok data => rfl
    | error e => rfl

/-- Witness for C7 at the fresh store: a failed and a successful fetch. -/
theorem fetchApartments_failure_witness :
    ((fetchApartments (initWorld none) (Except.error "boom")).1.store.error =
        some "boom" ∧
     (fetchApartments (initWorld none)
        (Except.error "boom")).1.store.allApartments = [] ∧
     (fetchApartments (initWorld none)
        (Except.error "boom")).1.store.isLoading = false) ∧
    (fetchApartments (initWorld none)
      (Except.ok data12)).1.store.isLoading = false :=
  ⟨fetchApartments_failure_spec.1 (initWorld none) "boom" rfl,
   fetchApartments_failure_spec.2 (initWorld none) (Except.ok data12) rfl⟩

/-- C4 counterexample: after clearing the room-option flags (`resetRooms`)
and then calling `reset`, the room option list is NOT back to its pristine
pre-fetch value (`2к` should start `active = true`): `reset` never touches
`rooms`.  Moreover the persisted slot is not cleared but rewritten with the
serialized defaults. -/
theorem reset_rooms_counterexample :
    (step (step (initWorld none) Action.resetRooms) Action.reset).store.rooms ≠
      initialState.rooms ∧
    (step (initWorld none) Action.reset).storage ≠ (initWorld none).storage := by
  constructor
  · decide
  · decide

/-- C4 amended: `reset` restores the dataset, the filtered and displayed
lists, `currentPage`, `isLoading`, `error`, `sortBy`, `hasInitialized` and
`filters` to the pristine pre-fetch defaults and overwrites the persisted
slot with the serialized default filters and sort — but it leaves the room
option list (and `itemsPerPage`) as they were, so the rooms UI state does not
return to its pristine value. -/
theorem reset_spec (w : World) :
    reset w =
      ⟨{ initialState with
          rooms := w.store.rooms
          itemsPerPage := w.store.itemsPerPage },
       some (defaultFilters, SortOption.default)⟩ := rfl

/-- C5 counterexample: restoration is not field-by-field.  With the stored
payload `{"filters":{"rooms":[2]}}` (present, valid JSON, but missing the
ranges) the whole partial object is assigned: afterwards `priceRange` is
`undefined` rather than the retained default `[5500000, 18900000]`.  And with
`{"filters":{}}` the restore throws a `TypeError` while syncing room flags
(`filters.value.rooms` is `undefined`), yet the in-memory filters have
already been overwritten — not left untouched. -/
theorem initPersisted_partial_counterexample :
    (initPersistedStateJ
        (some (.ok (.jobj [("filters", .jobj [("rooms", .jarr [.jnum 2])])])))
        defaultSlice).filters = .jobj [("rooms", .jarr [.jnum 2])] ∧
    jget (initPersistedStateJ
        (some (.ok (.jobj [("filters", .jobj [("rooms", .jarr [.jnum 2])])])))
        defaultSlice).filters "priceRange" = .ok none ∧
    jget defaultSlice.filters "priceRange" =
      .ok (some (.jarr [.jnum DEFAULT_PRICE_MIN, .jnum DEFAULT_PRICE_MAX])) ∧
    (initPersistedStateJ (some (.ok (.jobj [("filters", .jobj [])])))
        defaultSlice).filters = .jobj [] ∧
    (initPersistedStateJ (some (.ok (.jobj [("filters", .jobj [])])))
        defaultSlice).rooms = initialRooms :=
  ⟨rfl, rfl, rfl, rfl, rfl⟩

/-- C5 amended: `initPersistedState` falls back only at whole-field
granularity.  An absent slot or a `JSON.parse` failure leaves the state
untouched; `filters` is kept when `parsed.filters` is absent or null and is
otherwise replaced wholesale — missing nested fields are not filled in from
the defaults; `sortBy` is set to the literal `"default"` when
`parsed.sortBy` is absent or null, else replaced; a well-formed payload is
fully applied with the room `active` flags synced to the restored room set
(a `TypeError` during that sync is swallowed after the first two assignments
have landed). -/
theorem initPersisted_fallback_spec :
    (∀ s : PersistSlice, initPersistedStateJ none s = s) ∧
    (∀ s : PersistSlice, initPersistedStateJ (some (.error ())) s = s) ∧
    (∀ (s : PersistSlice) (fields : List (String × JValue)),
      lookupField fields "filters" = none →
      (initPersistedStateJ (some (.ok (.jobj fields))) s).filters =
        s.filters) ∧
    (∀ (s : PersistSlice) (fields : List (String × JValue)),
      lookupField fields "sortBy" = none →
      (initPersistedStateJ (some (.ok (.jobj fields))) s).sortBy =
        .jstr "default") ∧
    (∀ (s : PersistSlice) (fields : List (String × JValue)) (v : JValue),
      lookupField fields "filters" = some v → v ≠ .jnull →
      (initPersistedStateJ (some (.ok (.jobj fields))) s).filters = v) ∧
    ((initPersistedStateJ
        (some (.ok (.jobj [("filters", wellFormedFiltersJ),
                           ("sortBy", .jstr "price_asc")])))
        ⟨defaultFiltersJ, .jstr "default", inactiveRooms⟩).filters =
          wellFormedFiltersJ ∧
     (initPersistedStateJ
        (some (.ok (.jobj [("filters", wellFormedFiltersJ),
                           ("sortBy", .jstr "price_asc")])))
        ⟨defaultFiltersJ, .jstr "default", inactiveRooms⟩).sortBy =
          .jstr "price_asc" ∧
     (initPersistedStateJ
        (some (.ok (.jobj [("filters", wellFormedFiltersJ),
                           ("sortBy", .jstr "price_asc")])))
        ⟨defaultFiltersJ, .jstr "default", inactiveRooms⟩).rooms.map
          RoomOption.active = [false, true, false, false]) := by
  refine ⟨fun s => rfl, fun s => rfl, fun s fields h => ?_, fun s fields h => ?_,
    fun s fields v h hv => ?_, rfl, rfl, rfl⟩
  · unfold initPersistedStateJ jget
    simp [h]
  · unfold initPersistedStateJ jget
    simp [h]
  · unfold initPersistedStateJ jget
    cases v <;> simp_all

/-- Witness for C5's amended statement at concrete payloads: an empty object
payload keeps the default filters and forces `"default"` sort; a payload with
a non-null `filters` object installs it wholesale. -/
theorem initPersisted_fallback_witness :
    (initPersistedStateJ (some (.ok (.jobj []))) defaultSlice).filters =
      defaultSlice.filters ∧
    (initPersistedStateJ (some (.ok (.jobj []))) defaultSlice).sortBy =
      .jstr "default" ∧
    (initPersistedStateJ
        (some (.ok (.jobj [("filters", wellFormedFiltersJ)])))
        defaultSlice).filters = wellFormedFiltersJ :=
  ⟨initPersisted_fallback_spec.2.2.1 defaultSlice [] rfl,
   initPersisted_fallback_spec.2.2.2.1 defaultSlice [] rfl,
   initPersisted_fallback_spec.2.2.2.2.1 defaultSlice
     [("filters", wellFormedFiltersJ)] wellFormedFiltersJ rfl (by simp [wellFormedFiltersJ])⟩

/-- In a burst every next call arrives before the pending timer fires, so the
pending call is cancelled and rescheduled; the survivor is the last call. -/
theorem debounceRun_burst {α : Type} (wait : Nat) (rest : List (Nat × α)) :
    ∀ (t : Nat) (a : α), IsBurst wait ((t, a) :: rest) →
      debounceRun wait (some (t + wait, a)) rest =
        [((((t, a) :: rest).getLastD (t, a)).1 + wait,
          (((t, a) :: rest).getLastD (t, a)).2)] := by
  induction rest with
  | nil => intro t a _; simp [debounceRun]
  | cons c rest ih =>
    intro t a h
    obtain ⟨t', a'⟩ := c
    rw [IsBurst, List.chain'_cons] at h
    obtain ⟨⟨hlt, hgap⟩, hchain⟩ := h
    unfold debounceRun
    rw [if_neg (by omega)]
    rw [ih t' a' hchain]
    simp only [List.getLastD_cons]

/-- C8: every invocation of the debounced wrapper cancels the pending
scheduled call and schedules the wrapped function at `time + wait` with its
own arguments; hence in any burst (consecutive calls spaced less than `wait`
apart) only the last call's execution survives, firing exactly once, `wait`
after that call.  Concretely: `wait = 100`, calls at 0, 30, 60 yield exactly
one execution, at 160, with the arguments of the call at 60. -/
theorem debounce_spec :
    (∀ (α : Type) (wait ft t : Nat) (fa a : α) (rest : List (Nat × α)),
      t < ft →
      debounceRun wait (some (ft, fa)) ((t, a) :: rest) =
        debounceRun wait (some (t + wait, a)) rest) ∧
    (∀ (α : Type) (wait t : Nat) (a : α) (rest : List (Nat × α)),
      IsBurst wait ((t, a) :: rest) →
      debounceRun wait none ((t, a) :: rest) =
        [((((t, a) :: rest).getLastD (t, a)).1 + wait,
          (((t, a) :: rest).getLastD (t, a)).2)]) ∧
    debounceRun 100 (none : Option (Nat × String))
        [(0, "x"), (30, "y"), (60, "z")] = [(160, "z")] := by
  refine ⟨fun α wait ft t fa a rest h => ?_, fun α wait t a rest h => ?_, rfl⟩
  · simp only [debounceRun]
    rw [if_neg (by omega)]
  · show debounceRun wait (some (t + wait, a)) rest = _
    exact debounceRun_burst wait rest t a h

/-- Witness for C8: the burst conclusion applied to the spec's concrete
timeline (wait 100, calls at 0, 30, 60), and cancellation applied to its
second call. -/
theorem debounce_spec_witness :
    debounceRun 100 (none : Option (Nat × String))
        [(0, "x"), (30, "y"), (60, "z")] = [(160, "z")] ∧
    debounceRun 100 (some (100, "x")) [(30, "y"), (60, "z")] =
      debounceRun 100 (some (130, "y")) [(60, "z")] := by
  constructor
  · have h := debounce_spec.2.1 String 100 0 "x" [(30, "y"), (60, "z")]
      (by simp [IsBurst, List.chain'_cons])
    simpa using h
  · exact debounce_spec.1 String 100 100 30 "x" "y" [(60, "z")] (by decide)

/-- `applyFiltersAndSort` re-establishes the displayed-window invariant. -/
theorem displayedInv_applyFiltersAndSort (s : StoreState)
    (h : DisplayedInv s) : DisplayedInv (applyFiltersAndSort s) := by
  unfold applyFiltersAndSort
  split
  · exact h
  · show _ = List.take (1 * s.itemsPerPage) _
    rw [Nat.one_mul]

/-- Every store action preserves the displayed-window invariant. -/
theorem displayedInv_step (w : World) (a : Action)
    (h : DisplayedInv w.store) : DisplayedInv (step w a).store := by
  cases a with
  | fetchApartments r =>
    show DisplayedInv (fetchApartments w r).1.store
    unfold fetchApartments
    split
    · exact h
    · cases r with
      | ok data =>
        show DisplayedInv (applyFiltersAndSort _)
        refine displayedInv_applyFiltersAndSort _ ?_
        unfold initPersistedState
        cases hs : w.storage with
        | none => exact h
        | some p => exact h
      | error e => exact h
  | loadMore =>
    show DisplayedInv (loadMore w.store)
    unfold loadMore
    split
    · exact h
    · rfl
  | setSortBy o => exact displayedInv_applyFiltersAndSort _ h
  | setRoomsFilter rs => exact displayedInv_applyFiltersAndSort _ h
  | resetRooms => exact h
  | setPriceRange range => exact displayedInv_applyFiltersAndSort _ h
  | setSquareRange range => exact displayedInv_applyFiltersAndSort _ h
  | resetFilters => exact displayedInv_applyFiltersAndSort _ h
  | reset =>
    show ([] : List ApartmentsItem) =
      ([] : List ApartmentsItem).take (1 * w.store.itemsPerPage)
    exact List.take_nil.symm

/-- C9: in every reachable store state `displayedApartments` equals
`filteredApartments.take (currentPage * itemsPerPage)` — in particular it is
a prefix of `filteredApartments` — and every single action preserves this
invariant. -/
theorem displayed_window_invariant :
    (∀ (w : World) (a : Action),
      DisplayedInv w.store → DisplayedInv (step w a).store) ∧
    (∀ (saved : Option (FilterState × SortOption)) (acts : List Action),
      DisplayedInv (run saved acts).store ∧
      List.IsPrefix (run saved acts).store.displayedApartments
        (run saved acts).store.filteredApartments) := by
  have hrun : ∀ (acts : List Action) (w : World), DisplayedInv w.store →
      DisplayedInv (acts.foldl step w).store := by
    intro acts
    induction acts with
    | nil => exact fun w h => h
    | cons a acts ih => exact fun w h => ih (step w a) (displayedInv_step w a h)
  refine ⟨displayedInv_step, fun saved acts => ?_⟩
  have h : DisplayedInv (run saved acts).store := hrun acts (initWorld saved) rfl
  refine ⟨h, ?_⟩
  rw [DisplayedInv] at h
  rw [h]
  exact List.take_prefix _ _

/-- Witness for C9's preservation conjunct: `loadMore` on the fresh world. -/
theorem displayed_window_invariant_witness :
    DisplayedInv (step (initWorld none) Action.loadMore).store :=
  displayed_window_invariant.1 (initWorld none) Action.loadMore rfl

end ApartmentsStore
